import Mathlib

/-!
Shallow embedding of the kudu worker thread pool (`src/util/threadpool.cc`)
and the task/future layer (`src/util/task_executor.cc`), together with
theorems settling the specification claims about them.

Machine `int` fields are modelled as `Int`; none of the operations involved
can overflow in the scenarios the claims quantify over, and the source
performs no intentional wraparound on them. Fallible operations return the
`Status` value the C++ returns; a `CHECK` failure (process abort) is
modelled as `Option.none`. OS-level effects that the pool merely observes
(whether `kudu::Thread::Create` succeeded, the number of CPUs, the current
trace context) are passed in as explicit parameters.
-/

namespace KuduModel

/-- Result type mirroring `kudu::Status`: a code plus its message. Only the
codes the two source files construct are included. A default-constructed
C++ `Status` is `OK`. -/
inductive Status where
  | OK : Status
  | Uninitialized : String → Status
  | ServiceUnavailable : String → Status
  | NotSupported : String → Status
  | Aborted : String → Status
  | RuntimeError : String → Status
deriving DecidableEq, Repr

/-- Mirrors `Status::ok()`: true exactly for the `OK` code. -/
def Status.ok : Status → Bool
  | Status.OK => true
  | _ => false

/-- Mirrors `kudu::MonoDelta`, a signed duration stored in nanoseconds. -/
structure MonoDelta where
  nanos : Int
deriving DecidableEq, Repr

/-- Mirrors `MonoDelta::FromMilliseconds`. -/
def MonoDelta.FromMilliseconds (ms : Int) : MonoDelta :=
  { nanos := ms * 1000000 }

/-- Mirrors `ThreadPool::QueueEntry` (threadpool.h): the queued runnable
(identified by an id) and the optional trace handle retained while the
entry waits in the queue (trace handles identified by an id). -/
structure QueueEntry where
  runnable : Nat
  trace : Option Nat
deriving DecidableEq, Repr

/-- Mirrors `kudu::ThreadPoolBuilder` (threadpool.cc lines 44-73). -/
structure ThreadPoolBuilder where
  name_ : String
  min_threads_ : Int
  max_threads_ : Int
  max_queue_size_ : Int
  timeout_ : MonoDelta
deriving DecidableEq, Repr

/-- Mirrors the `ThreadPoolBuilder(name)` constructor. `numCPUs` stands for
`base::NumCPUs()`, an OS query, passed in explicitly. `2147483647` is
`std::numeric_limits<int>::max()`. -/
def ThreadPoolBuilder.ofName (name : String) (numCPUs : Int) : ThreadPoolBuilder :=
  { name_ := name
    min_threads_ := 0
    max_threads_ := numCPUs
    max_queue_size_ := 2147483647
    timeout_ := MonoDelta.FromMilliseconds 500 }

/-- Mirrors `ThreadPoolBuilder::set_min_threads`: `CHECK_GE(min_threads, 0)`
then assign. A failed CHECK aborts the process: modelled as `none`. -/
def ThreadPoolBuilder.set_min_threads (b : ThreadPoolBuilder) (min_threads : Int) :
    Option ThreadPoolBuilder :=
  if 0 ≤ min_threads then some { b with min_threads_ := min_threads } else none

/-- Mirrors `ThreadPoolBuilder::set_max_threads`: `CHECK_GT(max_threads, 0)`
then assign. -/
def ThreadPoolBuilder.set_max_threads (b : ThreadPoolBuilder) (max_threads : Int) :
    Option ThreadPoolBuilder :=
  if 0 < max_threads then some { b with max_threads_ := max_threads } else none

/-- Mirrors `ThreadPoolBuilder::set_max_queue_size`: `CHECK_GT(max_queue_size, 0)`
then assign. -/
def ThreadPoolBuilder.set_max_queue_size (b : ThreadPoolBuilder) (max_queue_size : Int) :
    Option ThreadPoolBuilder :=
  if 0 < max_queue_size then some { b with max_queue_size_ := max_queue_size } else none

/-- Mirrors `ThreadPoolBuilder::set_timeout` (threadpool.cc lines 70-73): the
source performs no validation here, the value is assigned unconditionally. -/
def ThreadPoolBuilder.set_timeout (b : ThreadPoolBuilder) (timeout : MonoDelta) :
    ThreadPoolBuilder :=
  { b with timeout_ := timeout }

/-- Mirrors the mutable state of `kudu::ThreadPool` that the pool's single
mutex protects, plus the configuration copied from the builder. -/
structure ThreadPool where
  name : String
  min_threads : Int
  max_threads : Int
  max_queue_size : Int
  timeout : MonoDelta
  pool_status : Status
  num_threads : Int
  active_threads : Int
  queue_size : Int
  queue : List QueueEntry
deriving DecidableEq, Repr

/-- Mirrors the `ThreadPool(builder)` constructor (threadpool.cc lines 85-95). -/
def ThreadPool.ofBuilder (b : ThreadPoolBuilder) : ThreadPool :=
  { name := b.name_
    min_threads := b.min_threads_
    max_threads := b.max_threads_
    max_queue_size := b.max_queue_size_
    timeout := b.timeout_
    pool_status := Status.Uninitialized "The pool was not initialized."
    num_threads := 0
    active_threads := 0
    queue_size := 0
    queue := [] }

/-- Mirrors `ThreadPool::CreateThreadUnlocked` (threadpool.cc lines 282-291).
`spawnOk` stands for whether `kudu::Thread::Create` succeeded (an OS
outcome). Returns the status, the `permanent` flag the new worker was given,
and the updated pool (`num_threads_++` happens only on success). -/
def ThreadPool.CreateThreadUnlocked (p : ThreadPool) (spawnOk : Bool) :
    Status × Bool × ThreadPool :=
  let permanent := decide (p.num_threads < p.min_threads)
  if spawnOk then
    (Status.OK, permanent, { p with num_threads := p.num_threads + 1 })
  else
    (Status.RuntimeError "Could not create thread", permanent, p)

/-- Observable actions `ThreadPool::Submit` performs besides returning a
status: a worker-spawn attempt (with the permanence flag it passed and
whether the spawn succeeded), the enqueue of the entry, and the
`not_empty_.notify_one()` wakeup. -/
inductive SubmitEvent where
  | spawnAttempt : Bool → Bool → SubmitEvent
  | enqueued : QueueEntry → SubmitEvent
  | notifyOne : SubmitEvent
deriving DecidableEq, Repr

/-- True exactly for a spawn-attempt event. -/
def SubmitEvent.isSpawn : SubmitEvent → Bool
  | SubmitEvent.spawnAttempt _ _ => true
  | _ => false

/-- Tail of `ThreadPool::Submit` (threadpool.cc lines 182-194): build the
`QueueEntry` with the submitter's current trace, retain the trace, push the
entry at the back, bump `queue_size_`, and wake one waiter. -/
def ThreadPool.enqueue (p : ThreadPool) (task : Nat) (cur_trace : Option Nat)
    (evs : List SubmitEvent) : Status × ThreadPool × List SubmitEvent :=
  let e : QueueEntry := { runnable := task, trace := cur_trace }
  (Status.OK,
   { p with queue := p.queue ++ [e], queue_size := p.queue_size + 1 },
   evs ++ [SubmitEvent.enqueued e, SubmitEvent.notifyOne])

/-- Worker-spawn condition `ThreadPool::Submit` evaluates (threadpool.cc
lines 165-167): with `inactive_threads = num_threads_ - active_threads_` and
`additional_threads = (queue_size_ + 1) - inactive_threads`, a spawn is
attempted when `additional_threads > 0 && num_threads_ < max_threads_`. -/
def ThreadPool.needsSpawn (p : ThreadPool) : Prop :=
  (p.queue_size + 1) - (p.num_threads - p.active_threads) > 0
    ∧ p.num_threads < p.max_threads

instance (p : ThreadPool) : Decidable p.needsSpawn := by
  unfold ThreadPool.needsSpawn; infer_instance

/-- Mirrors `ThreadPool::Submit` (threadpool.cc lines 144-195), the whole of
which runs under the pool lock. `task` identifies the submitted runnable,
`cur_trace` is `Trace::CurrentTrace()`, and `spawnOk` the outcome of the
thread creation should one be attempted. -/
def ThreadPool.Submit (p : ThreadPool) (task : Nat) (cur_trace : Option Nat)
    (spawnOk : Bool) : Status × ThreadPool × List SubmitEvent :=
  if p.pool_status.ok = false then
    (p.pool_status, p, [])
  else if p.queue_size = p.max_queue_size then
    (Status.ServiceUnavailable "Thread pool queue is full", p, [])
  else if p.needsSpawn then
    let r := p.CreateThreadUnlocked spawnOk
    if r.1.ok = false then
      if p.num_threads = 0 then
        (r.1, r.2.2, [SubmitEvent.spawnAttempt r.2.1 spawnOk])
      else
        ThreadPool.enqueue r.2.2 task cur_trace [SubmitEvent.spawnAttempt r.2.1 spawnOk]
    else
      ThreadPool.enqueue r.2.2 task cur_trace [SubmitEvent.spawnAttempt r.2.1 spawnOk]
  else
    ThreadPool.enqueue p task cur_trace []

/-- Mirrors `ThreadPool::ClearQueue` (threadpool.cc lines 117-125): release
the retained trace handle of every queued entry, clear the queue and zero
`queue_size_`. Returns the updated pool and the list of trace handles
released, one element per release call. -/
def ThreadPool.ClearQueue (p : ThreadPool) : ThreadPool × List Nat :=
  ({ p with queue := [], queue_size := 0 },
   p.queue.filterMap (fun e => e.trace))

/-- Mirrors the lock-held body of `ThreadPool::Shutdown` (threadpool.cc lines
127-138) up to the wait loop: flip `pool_status_` to the shut-down status,
clear the queue (releasing the retained traces) and wake everyone. The
subsequent `while (num_threads_ > 0) wait` releases the lock repeatedly
while the workers run; those worker steps are `ShutdownWaitStep`, and
`Shutdown` returns once `num_threads` has reached 0. -/
def ThreadPool.Shutdown (p : ThreadPool) : ThreadPool × List Nat :=
  ThreadPool.ClearQueue
    { p with pool_status := Status.ServiceUnavailable "The pool has been shut down." }

/-- Steps other threads can take on the pool state while `Shutdown` blocks in
its wait loop. With `pool_status_` no longer ok, `Submit` returns without
touching the state, so the only lock-holders that change it are workers: one
finishing the item it was already running (`--active_threads_`, threadpool.cc
line 262) and one observing the non-ok status, leaving the dispatch loop and
dropping `num_threads_` (lines 218-221 and 272). -/
inductive ShutdownWaitStep : ThreadPool → ThreadPool → Prop where
  | finishItem (p : ThreadPool) (h : 0 < p.active_threads)
      (hs : p.pool_status.ok = false) :
      ShutdownWaitStep p { p with active_threads := p.active_threads - 1 }
  | exitLoop (p : ThreadPool) (h : 0 < p.num_threads)
      (hs : p.pool_status.ok = false) :
      ShutdownWaitStep p { p with num_threads := p.num_threads - 1 }

/-- Decision a worker takes at the top of the `ThreadPool::DispatchThread`
loop while it holds the lock (threadpool.cc lines 216-250). -/
inductive DispatchAction where
  | exitOnStatus : DispatchAction
  | waitNotEmpty : DispatchAction
  | timedWaitNotEmpty : DispatchAction
  | popItem : QueueEntry → DispatchAction
deriving DecidableEq, Repr

/-- Mirrors one decision of the `ThreadPool::DispatchThread` loop body under
the lock: exit when the pool status is not ok; on an empty queue a permanent
worker waits on `not_empty_` unconditionally while a non-permanent one does a
timed wait; otherwise pop the head, drop `queue_size_` and raise
`active_threads_` (lines 216-250). -/
def ThreadPool.dispatchCheck (p : ThreadPool) (permanent : Bool) :
    DispatchAction × ThreadPool :=
  if p.pool_status.ok = false then
    (DispatchAction.exitOnStatus, p)
  else
    match p.queue with
    | [] =>
      if permanent then (DispatchAction.waitNotEmpty, p)
      else (DispatchAction.timedWaitNotEmpty, p)
    | e :: rest =>
      (DispatchAction.popItem e,
       { p with queue := rest, queue_size := p.queue_size - 1,
                active_threads := p.active_threads + 1 })

/-- Mirrors the re-check after a non-permanent worker's timed wait reported a
timeout (threadpool.cc lines 229-240): the worker leaves the loop exactly
when the queue, examined again under the lock, is still empty. -/
def ThreadPool.timeoutRecheckExit (p : ThreadPool) : Bool :=
  p.queue.isEmpty

/-- Mirrors the `kudu::Task` interface as FutureTask consumes it: `Run()`
produces a `Status` and `Abort()` a `bool` (the `BoundTask` default abort
returns false). The model records the results these calls would produce. -/
structure Task where
  run_result : Status
  abort_result : Bool
deriving DecidableEq, Repr

/-- Mirrors the `TaskState` enum of task_executor.h, with the source's
constant names. -/
inductive TaskState where
  | kTaskPendingState : TaskState
  | kTaskRunningState : TaskState
  | kTaskFinishedState : TaskState
  | kTaskAbortedState : TaskState
deriving DecidableEq, Repr

/-- Mirrors the mutable state of `kudu::FutureTask`: the state machine value,
the cached status, the listener list (callbacks identified by an id), the
countdown latch value, and the owned task payload. -/
structure FutureTask where
  state_ : TaskState
  status_ : Status
  listeners_ : List Nat
  latch_ : Nat
  task_ : Task
deriving DecidableEq, Repr

/-- Mirrors the `FutureTask(task)` constructor (task_executor.cc lines 19-23):
state starts Pending, the latch at 1; `status_` is a default-constructed
`Status`, which is OK. -/
def FutureTask.new (task : Task) : FutureTask :=
  { state_ := TaskState.kTaskPendingState
    status_ := Status.OK
    listeners_ := []
    latch_ := 1
    task_ := task }

/-- Observable actions of the FutureTask methods: the underlying task's
`Run()` being executed, a listener's `OnSuccess()` or `OnFailure(status)`
being invoked, and the completion latch being counted down. -/
inductive FtEvent where
  | taskRun : FtEvent
  | onSuccess : Nat → FtEvent
  | onFailure : Nat → Status → FtEvent
  | latchCountDown : FtEvent
deriving DecidableEq, Repr

/-- True exactly for a listener-invocation event. -/
def FtEvent.isInvocation : FtEvent → Bool
  | FtEvent.onSuccess _ => true
  | FtEvent.onFailure _ _ => true
  | _ => false

/-- The invocation a callback receives for outcome `s`: `OnSuccess` when `s`
is ok, `OnFailure(s)` otherwise. -/
def outcomeEvent (s : Status) (cb : Nat) : FtEvent :=
  if s.ok then FtEvent.onSuccess cb else FtEvent.onFailure cb s

/-- Mirrors `FutureTask::set_state` (task_executor.cc lines 99-106): once the
state is Aborted every transition is refused; otherwise the state is
overwritten and true returned. -/
def FutureTask.set_state (ft : FutureTask) (state : TaskState) : Bool × FutureTask :=
  if ft.state_ = TaskState.kTaskAbortedState then
    (false, ft)
  else
    (true, { ft with state_ := state })

/-- Mirrors `FutureTask::Abort` (task_executor.cc lines 54-61): succeed, and
move to Aborted, exactly when the state is not Finished and the underlying
task's own `Abort()` returns true. -/
def FutureTask.Abort (ft : FutureTask) : Bool × FutureTask :=
  if ft.state_ ≠ TaskState.kTaskFinishedState ∧ ft.task_.abort_result = true then
    (true, { ft with state_ := TaskState.kTaskAbortedState })
  else
    (false, ft)

/-- Mirrors `FutureTask::AddListener` (task_executor.cc lines 64-74): while
the state is not terminal the callback is appended; otherwise it is invoked
synchronously with the cached outcome. Returns the updated task and the
invocation events produced. -/
def FutureTask.AddListener (ft : FutureTask) (callback : Nat) :
    FutureTask × List FtEvent :=
  if ft.state_ ≠ TaskState.kTaskFinishedState ∧ ft.state_ ≠ TaskState.kTaskAbortedState then
    ({ ft with listeners_ := ft.listeners_ ++ [callback] }, [])
  else if ft.status_.ok then
    (ft, [FtEvent.onSuccess callback])
  else
    (ft, [FtEvent.onFailure callback ft.status_])

/-- Mirrors `FutureTask::Run` (task_executor.cc lines 25-52). When
`set_state(kTaskRunningState)` is refused (the task was aborted before it
ran) every registered listener receives `OnFailure` with a synthesized
aborted status and the latch is counted down, without running the task.
Otherwise the task runs, its status is cached, the state moves to Finished,
the listeners are invoked with the cached outcome, and the latch is counted
down last. -/
def FutureTask.Run (ft : FutureTask) : FutureTask × List FtEvent :=
  let r1 := ft.set_state TaskState.kTaskRunningState
  if r1.1 = false then
    ({ r1.2 with latch_ := r1.2.latch_ - 1 },
     r1.2.listeners_.map
       (fun cb => FtEvent.onFailure cb (Status.Aborted "Task was aborted before it ran"))
       ++ [FtEvent.latchCountDown])
  else
    let ft2 := { r1.2 with status_ := r1.2.task_.run_result }
    let r3 := ft2.set_state TaskState.kTaskFinishedState
    let evs :=
      if r3.2.status_.ok then
        r3.2.listeners_.map FtEvent.onSuccess
      else
        r3.2.listeners_.map (fun cb => FtEvent.onFailure cb r3.2.status_)
    ({ r3.2 with latch_ := r3.2.latch_ - 1 },
     FtEvent.taskRun :: (evs ++ [FtEvent.latchCountDown]))

/-- Operations an interleaving of the submitter thread and the worker thread
can apply to one FutureTask (each method body holds the task's lock, so an
execution is a sequence of these). -/
inductive FtOp where
  | addListener : Nat → FtOp
  | run : FtOp
  | abort : FtOp
deriving DecidableEq, Repr

/-- Apply one operation, collecting the events it produces. `Abort` produces
no listener events. -/
def FutureTask.applyOp (ft : FutureTask) : FtOp → FutureTask × List FtEvent
  | FtOp.addListener cb => ft.AddListener cb
  | FtOp.run => ft.Run
  | FtOp.abort => ((ft.Abort).2, [])

/-- Run a sequence of operations from a state, concatenating the events in
program order. -/
def FutureTask.runOps (ft : FutureTask) : List FtOp → FutureTask × List FtEvent
  | [] => (ft, [])
  | op :: ops =>
    let r1 := ft.applyOp op
    let r2 := r1.1.runOps ops
    (r2.1, r1.2 ++ r2.2)

/-- The callbacks an operation sequence registers, in registration order. -/
def registeredCbs (ops : List FtOp) : List Nat :=
  ops.filterMap (fun op =>
    match op with
    | FtOp.addListener cb => some cb
    | _ => none)

/-- Mirrors `TaskExecutor::Submit(task, future)` (task_executor.cc lines
116-124) for a caller that passed a future handle: a fresh FutureTask is
created and stored into the caller's handle first, and only then submitted
to the pool; the pool's status is returned. `ftId` identifies the new
FutureTask as the pool-level runnable, `cur_trace` and `spawnOk` are passed
through to `ThreadPool::Submit`. -/
def TaskExecutor.Submit (pool : ThreadPool) (task : Task) (ftId : Nat)
    (cur_trace : Option Nat) (spawnOk : Bool) : Status × FutureTask × ThreadPool :=
  let future_task := FutureTask.new task
  let r := pool.Submit ftId cur_trace spawnOk
  (r.1, future_task, r.2.1)

/-- Statement of the spec claim that every listener is invoked with an
outcome matching the cached status: over an execution, the invocation
events, read in order, are the registered callbacks in registration order,
each receiving `on_success` when the final cached status is ok and
`on_failure` with that status otherwise. Written from the spec's words to
be compared against the embedded code. -/
def listenerOutcomesMatchStatus (ft0 : FutureTask) (ops : List FtOp) : Prop :=
  ((ft0.runOps ops).2).filter FtEvent.isInvocation
    = (registeredCbs ops).map (outcomeEvent (ft0.runOps ops).1.status_)

/-- Statement of the spec claim that the idle timeout is validated when set
(constraint `≥ 0`, invalid values rejected): whatever a caller passes to
`set_timeout`, the stored timeout is nonnegative. Written from the spec's
words to be compared against the embedded code. -/
def timeoutValidatedAtSet : Prop :=
  ∀ (b : ThreadPoolBuilder) (t : MonoDelta), 0 ≤ (b.set_timeout t).timeout_.nanos

/-- Concrete running pool used to instantiate theorems whose hypotheses
describe a live pool. Interleaving invariants hold: one of the two workers is
active, the queue holds one entry and `queue_size` mirrors its length. -/
def samplePool : ThreadPool :=
  { name := "test"
    min_threads := 1
    max_threads := 4
    max_queue_size := 10
    timeout := MonoDelta.FromMilliseconds 500
    pool_status := Status.OK
    num_threads := 2
    active_threads := 1
    queue_size := 1
    queue := [{ runnable := 7, trace := some 3 }] }

/-- Concrete builder used to instantiate theorems. -/
def sampleBuilder : ThreadPoolBuilder :=
  ThreadPoolBuilder.ofName "test" 4

/-! ## Evaluation lemmas: one per control path of `ThreadPool::Submit` -/

theorem submit_not_running (p : ThreadPool) (t : Nat) (tr : Option Nat) (ok : Bool)
    (h : p.pool_status.ok = false) :
    p.Submit t tr ok = (p.pool_status, p, []) := by
  simp [ThreadPool.Submit, h]

theorem submit_queue_full (p : ThreadPool) (t : Nat) (tr : Option Nat) (ok : Bool)
    (h1 : p.pool_status.ok = true) (h2 : p.queue_size = p.max_queue_size) :
    p.Submit t tr ok = (Status.ServiceUnavailable "Thread pool queue is full", p, []) := by
  have hnot : ¬ p.pool_status.ok = false := by simp [h1]
  unfold ThreadPool.Submit
  rw [if_neg hnot, if_pos h2]

theorem submit_spawn_success (p : ThreadPool) (t : Nat) (tr : Option Nat)
    (h1 : p.pool_status.ok = true) (h2 : p.queue_size ≠ p.max_queue_size)
    (h3 : p.needsSpawn) :
    p.Submit t tr true =
      (Status.OK,
       { p with num_threads := p.num_threads + 1,
                queue := p.queue ++ [{ runnable := t, trace := tr }],
                queue_size := p.queue_size + 1 },
       [SubmitEvent.spawnAttempt (decide (p.num_threads < p.min_threads)) true,
        SubmitEvent.enqueued { runnable := t, trace := tr }, SubmitEvent.notifyOne]) := by
  have hnot : ¬ p.pool_status.ok = false := by simp [h1]
  unfold ThreadPool.Submit
  rw [if_neg hnot, if_neg h2, if_pos h3]
  simp [ThreadPool.CreateThreadUnlocked, ThreadPool.enqueue, Status.ok]

theorem submit_spawn_fail_fatal (p : ThreadPool) (t : Nat) (tr : Option Nat)
    (h1 : p.pool_status.ok = true) (h2 : p.queue_size ≠ p.max_queue_size)
    (h3 : p.needsSpawn) (h0 : p.num_threads = 0) :
    p.Submit t tr false =
      (Status.RuntimeError "Could not create thread", p,
       [SubmitEvent.spawnAttempt (decide (p.num_threads < p.min_threads)) false]) := by
  have hnot : ¬ p.pool_status.ok = false := by simp [h1]
  unfold ThreadPool.Submit
  rw [if_neg hnot, if_neg h2, if_pos h3]
  simp [ThreadPool.CreateThreadUnlocked, Status.ok, h0]

theorem submit_spawn_fail_nonfatal (p : ThreadPool) (t : Nat) (tr : Option Nat)
    (h1 : p.pool_status.ok = true) (h2 : p.queue_size ≠ p.max_queue_size)
    (h3 : p.needsSpawn) (h0 : ¬ p.num_threads = 0) :
    p.Submit t tr false =
      (Status.OK,
       { p with queue := p.queue ++ [{ runnable := t, trace := tr }],
                queue_size := p.queue_size + 1 },
       [SubmitEvent.spawnAttempt (decide (p.num_threads < p.min_threads)) false,
        SubmitEvent.enqueued { runnable := t, trace := tr }, SubmitEvent.notifyOne]) := by
  have hnot : ¬ p.pool_status.ok = false := by simp [h1]
  unfold ThreadPool.Submit
  rw [if_neg hnot, if_neg h2, if_pos h3]
  simp [ThreadPool.CreateThreadUnlocked, ThreadPool.enqueue, Status.ok, h0]

theorem submit_no_spawn (p : ThreadPool) (t : Nat) (tr : Option Nat) (ok : Bool)
    (h1 : p.pool_status.ok = true) (h2 : p.queue_size ≠ p.max_queue_size)
    (h3 : ¬ p.needsSpawn) :
    p.Submit t tr ok =
      (Status.OK,
       { p with queue := p.queue ++ [{ runnable := t, trace := tr }],
                queue_size := p.queue_size + 1 },
       [SubmitEvent.enqueued { runnable := t, trace := tr }, SubmitEvent.notifyOne]) := by
  have hnot : ¬ p.pool_status.ok = false := by simp [h1]
  unfold ThreadPool.Submit
  rw [if_neg hnot, if_neg h2, if_neg h3]
  simp [ThreadPool.enqueue]

theorem ok_true_of_not_false {b : Bool} (h : ¬ b = false) : b = true := by
  cases b
  · exact absurd rfl h
  · rfl

theorem ok_OK : Status.OK.ok = true := rfl

theorem ok_Uninitialized (m : String) : (Status.Uninitialized m).ok = false := rfl

theorem ok_ServiceUnavailable (m : String) : (Status.ServiceUnavailable m).ok = false := rfl

theorem ok_RuntimeError (m : String) : (Status.RuntimeError m).ok = false := rfl

theorem ok_Aborted (m : String) : (Status.Aborted m).ok = false := rfl

/-- Helper shared by the claims about rejected submissions: whenever `Submit`
returns a non-ok status, the pool state is left exactly as it was. -/
theorem submit_error_unchanged (p : ThreadPool) (t : Nat) (tr : Option Nat) (ok : Bool)
    (h : (p.Submit t tr ok).1.ok = false) : (p.Submit t tr ok).2.1 = p := by
  by_cases h1 : p.pool_status.ok = false
  · rw [submit_not_running p t tr ok h1]
  · have hok := ok_true_of_not_false h1
    by_cases h2 : p.queue_size = p.max_queue_size
    · rw [submit_queue_full p t tr ok hok h2]
    · by_cases h3 : p.needsSpawn
      · cases ok with
        | false =>
          by_cases h0 : p.num_threads = 0
          · rw [submit_spawn_fail_fatal p t tr hok h2 h3 h0]
          · rw [submit_spawn_fail_nonfatal p t tr hok h2 h3 h0] at h
            simp [Status.ok] at h
        | true =>
          rw [submit_spawn_success p t tr hok h2 h3] at h
          simp [Status.ok] at h
      · rw [submit_no_spawn p t tr ok hok h2 h3] at h
        simp [Status.ok] at h

/-- C1: `Pool.submit` returns an error if and only if the pool status is not
Running (the error being the pool-state status: uninitialized before init,
unavailable after shutdown), or the queue is full
(`queue_size == max_queue_size`), or spawning a worker failed while
`num_threads == 0`; and whenever submit returns an error, the work item is
not enqueued and the pool state (queue, queue_size) is unchanged. -/
theorem C1_submit_error_characterization (p : ThreadPool) (task : Nat)
    (tr : Option Nat) (spawnOk : Bool) (b : ThreadPoolBuilder) :
    ((p.Submit task tr spawnOk).1.ok = false ↔
      (p.pool_status.ok = false ∨ p.queue_size = p.max_queue_size
        ∨ (p.needsSpawn ∧ spawnOk = false ∧ p.num_threads = 0)))
    ∧ (p.pool_status.ok = false → (p.Submit task tr spawnOk).1 = p.pool_status)
    ∧ ((p.Submit task tr spawnOk).1.ok = false → (p.Submit task tr spawnOk).2.1 = p)
    ∧ ((ThreadPool.ofBuilder b).Submit task tr spawnOk).1
        = Status.Uninitialized "The pool was not initialized."
    ∧ ((p.Shutdown).1.Submit task tr spawnOk).1
        = Status.ServiceUnavailable "The pool has been shut down." := by
  have part4 : ((ThreadPool.ofBuilder b).Submit task tr spawnOk).1
      = Status.Uninitialized "The pool was not initialized." := by
    rw [submit_not_running (ThreadPool.ofBuilder b) task tr spawnOk rfl]
    rfl
  have part5 : ((p.Shutdown).1.Submit task tr spawnOk).1
      = Status.ServiceUnavailable "The pool has been shut down." := by
    rw [submit_not_running (p.Shutdown).1 task tr spawnOk rfl]
    rfl
  refine ⟨?_, ?_, submit_error_unchanged p task tr spawnOk, part4, part5⟩
  · by_cases h1 : p.pool_status.ok = false
    · rw [submit_not_running p task tr spawnOk h1]
      simp [h1]
    · have hok := ok_true_of_not_false h1
      by_cases h2 : p.queue_size = p.max_queue_size
      · rw [submit_queue_full p task tr spawnOk hok h2]
        simp [ok_ServiceUnavailable, hok, h2]
      · by_cases h3 : p.needsSpawn
        · cases spawnOk with
          | false =>
            by_cases h0 : p.num_threads = 0
            · rw [submit_spawn_fail_fatal p task tr hok h2 h3 h0]
              simp [ok_RuntimeError, hok, h2, h3, h0]
            · rw [submit_spawn_fail_nonfatal p task tr hok h2 h3 h0]
              simp [ok_OK, hok, h2, h0]
          | true =>
            rw [submit_spawn_success p task tr hok h2 h3]
            simp [ok_OK, hok, h2]
        · rw [submit_no_spawn p task tr spawnOk hok h2 h3]
          simp [ok_OK, hok, h2, h3]
  · intro h1
    rw [submit_not_running p task tr spawnOk h1]

/-- C3: `FutureTask.Abort` returns true (and moves the state to Aborted) if
and only if the current state is not Finished and the underlying Task's own
abort returns true; and once the state is Aborted, no later state change is
permitted: every subsequent `set_state` call leaves the state Aborted and
returns false. -/
theorem C3_abort_iff_and_aborted_absorbing (ft : FutureTask) :
    ((ft.Abort).1 = true ↔
      (ft.state_ ≠ TaskState.kTaskFinishedState ∧ ft.task_.abort_result = true))
    ∧ ((ft.Abort).1 = true → (ft.Abort).2.state_ = TaskState.kTaskAbortedState)
    ∧ (ft.state_ = TaskState.kTaskAbortedState →
        ∀ s : TaskState, ft.set_state s = (false, ft)) := by
  refine ⟨?_, ?_, fun hst s => by unfold FutureTask.set_state; rw [if_pos hst]⟩
  · unfold FutureTask.Abort
    by_cases hc : ft.state_ ≠ TaskState.kTaskFinishedState ∧ ft.task_.abort_result = true
    · rw [if_pos hc]
      simpa using hc
    · rw [if_neg hc]
      simpa using hc
  · unfold FutureTask.Abort
    by_cases hc : ft.state_ ≠ TaskState.kTaskFinishedState ∧ ft.task_.abort_result = true
    · rw [if_pos hc]
      intro
      rfl
    · rw [if_neg hc]
      intro h
      exact absurd h (by simp)

/-- C7: a worker never exits the dispatch loop with work still queued except
through shutdown: the loop is left only when the pool status is not Running,
or when the worker is non-permanent, its timed wait reported a timeout, and
the queue is re-checked and found empty; a permanent worker never exits the
loop on timeout, so no queued item is ever dropped by worker reaping. -/
theorem C7_dispatch_exit_only_shutdown_or_empty_timeout (p p2 : ThreadPool)
    (permanent : Bool) :
    ((p.dispatchCheck permanent).1 = DispatchAction.exitOnStatus →
      p.pool_status.ok = false ∧ (p.dispatchCheck permanent).2 = p)
    ∧ (permanent = true →
        (p.dispatchCheck permanent).1 ≠ DispatchAction.timedWaitNotEmpty)
    ∧ ((p.dispatchCheck permanent).1 = DispatchAction.timedWaitNotEmpty →
        permanent = false ∧ p.queue = [])
    ∧ (p2.timeoutRecheckExit = true → p2.queue = [])
    ∧ (p.pool_status.ok = true → p.queue ≠ [] →
        ∃ e, (p.dispatchCheck permanent).1 = DispatchAction.popItem e) := by
  unfold ThreadPool.dispatchCheck ThreadPool.timeoutRecheckExit
  by_cases hs : p.pool_status.ok = false
  · rw [if_pos hs]
    refine ⟨fun _ => ⟨hs, rfl⟩, by simp, by simp, by simp [List.isEmpty_iff], ?_⟩
    intro hok
    rw [hok] at hs
    exact absurd hs (by simp)
  · rw [if_neg hs]
    cases hq : p.queue with
    | nil =>
      cases permanent <;>
        simp [List.isEmpty_iff, hq]
    | cons e rest =>
      cases permanent <;>
        simp [List.isEmpty_iff, hq]

/-- C8 (amended): the three integer options are validated at the moment they
are set (min_threads ≥ 0, max_threads ≥ 1, max_queue_size ≥ 1, a failed
check being a programmer error), but `set_timeout` performs no validation
and stores any value; the defaults are min_threads = 0, max_threads = number
of CPUs, max_queue_size = INT_MAX and idle_timeout = 500 ms. -/
theorem C8_builder_option_validation (b : ThreadPoolBuilder) (m : Int) (t : MonoDelta)
    (name : String) (numCPUs : Int) :
    ((b.set_min_threads m).isSome ↔ 0 ≤ m)
    ∧ ((b.set_max_threads m).isSome ↔ 0 < m)
    ∧ ((b.set_max_queue_size m).isSome ↔ 0 < m)
    ∧ b.set_timeout t = { b with timeout_ := t }
    ∧ ThreadPoolBuilder.ofName name numCPUs =
        { name_ := name, min_threads_ := 0, max_threads_ := numCPUs,
          max_queue_size_ := 2147483647,
          timeout_ := MonoDelta.FromMilliseconds 500 } := by
  refine ⟨?_, ?_, ?_, rfl, rfl⟩
  · by_cases hc : 0 ≤ m <;> simp [ThreadPoolBuilder.set_min_threads, hc]
  · by_cases hc : 0 < m <;> simp [ThreadPoolBuilder.set_max_threads, hc]
  · by_cases hc : 0 < m <;> simp [ThreadPoolBuilder.set_max_queue_size, hc]

/-- C8 counterexample: contrary to the claim, `set_timeout` does not validate
`idle_timeout ≥ 0`; passing a negative duration is accepted and stored. -/
theorem C8_counterexample_timeout_not_validated : ¬ timeoutValidatedAtSet := by
  intro h
  have h2 := h sampleBuilder { nanos := -1 }
  rw [ThreadPoolBuilder.set_timeout] at h2
  simp at h2

/-- C9: the redundant counter `queue_size` always equals the length of the
queue: the equality holds initially and is preserved by every operation that
touches the queue (submit's enqueue, a worker's dequeue, and clearing the
queue during shutdown). -/
theorem C9_queue_size_mirrors_queue_length (b : ThreadPoolBuilder) (p : ThreadPool)
    (task : Nat) (tr : Option Nat) (spawnOk : Bool) (permanent : Bool)
    (h : p.queue_size = (p.queue.length : Int)) :
    ((ThreadPool.ofBuilder b).queue_size = ((ThreadPool.ofBuilder b).queue.length : Int))
    ∧ ((p.Submit task tr spawnOk).2.1.queue_size
        = ((p.Submit task tr spawnOk).2.1.queue.length : Int))
    ∧ ((p.dispatchCheck permanent).2.queue_size
        = ((p.dispatchCheck permanent).2.queue.length : Int))
    ∧ ((p.ClearQueue).1.queue_size = ((p.ClearQueue).1.queue.length : Int)) := by
  refine ⟨by simp [ThreadPool.ofBuilder], ?_, ?_, by simp [ThreadPool.ClearQueue]⟩
  · by_cases h1 : p.pool_status.ok = false
    · rw [submit_not_running p task tr spawnOk h1]
      exact h
    · have hok := ok_true_of_not_false h1
      by_cases h2 : p.queue_size = p.max_queue_size
      · rw [submit_queue_full p task tr spawnOk hok h2]
        exact h
      · by_cases h3 : p.needsSpawn
        · cases spawnOk with
          | false =>
            by_cases h0 : p.num_threads = 0
            · rw [submit_spawn_fail_fatal p task tr hok h2 h3 h0]
              exact h
            · rw [submit_spawn_fail_nonfatal p task tr hok h2 h3 h0]
              simp [h]
          | true =>
            rw [submit_spawn_success p task tr hok h2 h3]
            simp [h]
        · rw [submit_no_spawn p task tr spawnOk hok h2 h3]
          simp [h]
  · unfold ThreadPool.dispatchCheck
    by_cases hs : p.pool_status.ok = false
    · rw [if_pos hs]
      exact h
    · rw [if_neg hs]
      cases hq : p.queue with
      | nil =>
        cases permanent <;> simpa [hq] using h
      | cons e rest =>
        rw [hq] at h
        simp at h
        simp [h]

theorem C9_queue_size_mirrors_queue_length_witness :
    samplePool.queue_size = (samplePool.queue.length : Int)
    ∧ (samplePool.Submit 5 (some 3) true).2.1.queue_size
        = ((samplePool.Submit 5 (some 3) true).2.1.queue.length : Int) :=
  ⟨by decide,
   (C9_queue_size_mirrors_queue_length sampleBuilder samplePool 5 (some 3) true false
     (by decide)).2.1⟩

/-- C10: `Executor.submit(task)` stores the newly created FutureTask into the
caller's future handle before submitting it to the pool, so when the pool
rejects the submission the caller is left holding a Future that is still
Pending, with its latch still set and no listener fired, even though submit
returned an error (and the pool state is unchanged, so the task will never
run). -/
theorem C10_executor_submit_future_set_despite_rejection (pool : ThreadPool)
    (task : Task) (ftId : Nat) (tr : Option Nat) (spawnOk : Bool) :
    (TaskExecutor.Submit pool task ftId tr spawnOk).2.1 = FutureTask.new task
    ∧ (FutureTask.new task).state_ = TaskState.kTaskPendingState
    ∧ (FutureTask.new task).latch_ = 1
    ∧ (FutureTask.new task).listeners_ = []
    ∧ (TaskExecutor.Submit pool task ftId tr spawnOk).1 = (pool.Submit ftId tr spawnOk).1
    ∧ ((pool.Submit ftId tr spawnOk).1.ok = false →
        (TaskExecutor.Submit pool task ftId tr spawnOk).2.2 = pool) := by
  refine ⟨rfl, rfl, rfl, rfl, rfl, ?_⟩
  intro herr
  exact submit_error_unchanged pool ftId tr spawnOk herr

/-! ## Evaluation lemmas for the two control paths of `FutureTask::Run` -/

theorem run_aborted (ft : FutureTask)
    (hst : ft.state_ = TaskState.kTaskAbortedState) :
    ft.Run = ({ ft with latch_ := ft.latch_ - 1 },
      ft.listeners_.map
        (fun cb => FtEvent.onFailure cb (Status.Aborted "Task was aborted before it ran"))
        ++ [FtEvent.latchCountDown]) := by
  unfold FutureTask.Run FutureTask.set_state
  rw [if_pos hst]
  simp

theorem run_not_aborted (ft : FutureTask)
    (hst : ¬ ft.state_ = TaskState.kTaskAbortedState) :
    ft.Run = ({ ft with state_ := TaskState.kTaskFinishedState,
                        status_ := ft.task_.run_result,
                        latch_ := ft.latch_ - 1 },
      FtEvent.taskRun ::
        (ft.listeners_.map (outcomeEvent ft.task_.run_result) ++ [FtEvent.latchCountDown])) := by
  unfold FutureTask.Run FutureTask.set_state
  rw [if_neg hst]
  by_cases hok : (ft.task_.run_result).ok <;>
    simp [outcomeEvent, hok]

/-- C4: `FutureTask.Run` invoked while the state is Aborted does not execute
the Task's run; it synthesizes an "aborted before it ran" failure, fires
`on_failure` with that failure for every registered listener, then releases
the completion latch, and returns; and on every path of Run the latch is
released only after all listener invocations. -/
theorem C4_run_aborted_path_and_latch_released_last (ft : FutureTask) :
    (ft.state_ = TaskState.kTaskAbortedState →
      ft.Run = ({ ft with latch_ := ft.latch_ - 1 },
        ft.listeners_.map
          (fun cb => FtEvent.onFailure cb (Status.Aborted "Task was aborted before it ran"))
          ++ [FtEvent.latchCountDown])
      ∧ FtEvent.taskRun ∉ (ft.Run).2)
    ∧ (∃ evs, (ft.Run).2 = evs ++ [FtEvent.latchCountDown]
        ∧ FtEvent.latchCountDown ∉ evs) := by
  by_cases hst : ft.state_ = TaskState.kTaskAbortedState
  · have e := run_aborted ft hst
    refine ⟨fun _ => ⟨e, ?_⟩, ?_⟩
    · rw [e]
      simp
    · refine ⟨ft.listeners_.map
        (fun cb => FtEvent.onFailure cb (Status.Aborted "Task was aborted before it ran")),
        by rw [e], by simp⟩
  · have e := run_not_aborted ft hst
    refine ⟨fun h => absurd h hst, ?_⟩
    refine ⟨FtEvent.taskRun :: ft.listeners_.map (outcomeEvent ft.task_.run_result),
      by rw [e]; simp, ?_⟩
    simp [outcomeEvent]
    intro cb _
    split <;> simp

/-! ## Execution lemmas for FutureTask operation sequences -/

theorem addListener_not_terminal (ft : FutureTask) (cb : Nat)
    (h1 : ¬ ft.state_ = TaskState.kTaskFinishedState)
    (h2 : ¬ ft.state_ = TaskState.kTaskAbortedState) :
    ft.AddListener cb = ({ ft with listeners_ := ft.listeners_ ++ [cb] }, []) := by
  unfold FutureTask.AddListener
  rw [if_pos ⟨h1, h2⟩]

theorem addListener_terminal (ft : FutureTask) (cb : Nat)
    (h : ft.state_ = TaskState.kTaskFinishedState ∨ ft.state_ = TaskState.kTaskAbortedState) :
    ft.AddListener cb = (ft, [outcomeEvent ft.status_ cb]) := by
  unfold FutureTask.AddListener outcomeEvent
  rw [if_neg (by rcases h with h | h <;> simp [h])]
  by_cases hok : ft.status_.ok <;> simp [hok]

theorem abort_noop_of_unabortable (ft : FutureTask)
    (hab : ft.task_.abort_result = false) :
    ft.Abort = (false, ft) := by
  unfold FutureTask.Abort
  rw [if_neg (by simp [hab])]

theorem abort_noop_of_finished (ft : FutureTask)
    (hst : ft.state_ = TaskState.kTaskFinishedState) :
    ft.Abort = (false, ft) := by
  unfold FutureTask.Abort
  rw [if_neg (by simp [hst])]

theorem registeredCbs_append (l1 l2 : List FtOp) :
    registeredCbs (l1 ++ l2) = registeredCbs l1 ++ registeredCbs l2 := by
  simp [registeredCbs]

theorem runOps_run_free_pending (ops : List FtOp) (ft : FutureTask)
    (hrf : FtOp.run ∉ ops)
    (hst : ft.state_ = TaskState.kTaskPendingState)
    (hab : ft.task_.abort_result = false) :
    ft.runOps ops = ({ ft with listeners_ := ft.listeners_ ++ registeredCbs ops }, []) := by
  induction ops generalizing ft with
  | nil =>
    simp [FutureTask.runOps, registeredCbs]
  | cons op ops ih =>
    have hrf2 : FtOp.run ∉ ops := fun hm => hrf (List.mem_cons_of_mem _ hm)
    cases op with
    | addListener cb =>
      have e := addListener_not_terminal ft cb (by simp [hst]) (by simp [hst])
      have e2 := ih { ft with listeners_ := ft.listeners_ ++ [cb] } hrf2 hst hab
      simp [FutureTask.runOps, FutureTask.applyOp, e, e2, registeredCbs]
    | run =>
      exact absurd (List.mem_cons_self _ _) hrf
    | abort =>
      have e := abort_noop_of_unabortable ft hab
      have e2 := ih ft hrf2 hst hab
      simp [FutureTask.runOps, FutureTask.applyOp, e, e2, registeredCbs]

theorem runOps_run_free_finished (ops : List FtOp) (ft : FutureTask)
    (hrf : FtOp.run ∉ ops)
    (hst : ft.state_ = TaskState.kTaskFinishedState) :
    ft.runOps ops = (ft, (registeredCbs ops).map (outcomeEvent ft.status_)) := by
  induction ops with
  | nil =>
    simp [FutureTask.runOps, registeredCbs]
  | cons op ops ih =>
    have hrf2 : FtOp.run ∉ ops := fun hm => hrf (List.mem_cons_of_mem _ hm)
    cases op with
    | addListener cb =>
      have e := addListener_terminal ft cb (Or.inl hst)
      simp [FutureTask.runOps, FutureTask.applyOp, e, ih hrf2, registeredCbs]
    | run =>
      exact absurd (List.mem_cons_self _ _) hrf
    | abort =>
      have e := abort_noop_of_finished ft hst
      simp [FutureTask.runOps, FutureTask.applyOp, e, ih hrf2, registeredCbs]

theorem runOps_append (l1 l2 : List FtOp) (ft : FutureTask) :
    ft.runOps (l1 ++ l2)
      = (((ft.runOps l1).1.runOps l2).1,
         (ft.runOps l1).2 ++ ((ft.runOps l1).1.runOps l2).2) := by
  induction l1 generalizing ft with
  | nil =>
    simp [FutureTask.runOps]
  | cons op l1 ih =>
    simp [FutureTask.runOps, ih]

theorem filter_isInvocation_map_outcome (s : Status) (l : List Nat) :
    (l.map (outcomeEvent s)).filter FtEvent.isInvocation = l.map (outcomeEvent s) := by
  apply List.filter_eq_self.mpr
  intro e he
  rcases List.mem_map.mp he with ⟨cb, _, rfl⟩
  by_cases hok : s.ok <;> simp [outcomeEvent, FtEvent.isInvocation, hok]

/-- C2 (amended): for a task whose own `abort()` returns false (the default,
non-abortable task — so no successful abort can precede Run), over any
interleaving in which Run is called once, each registered listener is
invoked exactly once, in registration order, with an outcome matching the
cached status (the invocation events, in order, are exactly the registered
callbacks each receiving the cached outcome, and the cached status is the
task's run result); and a listener registered while the task is already in
a terminal state is invoked synchronously at registration with the cached
outcome. -/
theorem C2_listener_invocations_exactly_once_in_order (s : Status)
    (pre post : List FtOp)
    (h1 : FtOp.run ∉ pre) (h2 : FtOp.run ∉ post) :
    (((FutureTask.new { run_result := s, abort_result := false }).runOps
        (pre ++ FtOp.run :: post)).2.filter FtEvent.isInvocation
      = (registeredCbs (pre ++ FtOp.run :: post)).map (outcomeEvent s))
    ∧ ((FutureTask.new { run_result := s, abort_result := false }).runOps
        (pre ++ FtOp.run :: post)).1.status_ = s
    ∧ (∀ ft : FutureTask, ∀ cb : Nat,
        (ft.state_ = TaskState.kTaskFinishedState ∨ ft.state_ = TaskState.kTaskAbortedState) →
        ft.AddListener cb = (ft, [outcomeEvent ft.status_ cb])) := by
  have hpre := runOps_run_free_pending pre
    (FutureTask.new { run_result := s, abort_result := false }) h1 rfl rfl
  have hrun := run_not_aborted
    { FutureTask.new { run_result := s, abort_result := false } with
      listeners_ := (FutureTask.new { run_result := s, abort_result := false }).listeners_
        ++ registeredCbs pre }
    (by simp [FutureTask.new])
  have hpost := runOps_run_free_finished post
    { { FutureTask.new { run_result := s, abort_result := false } with
        listeners_ := (FutureTask.new { run_result := s, abort_result := false }).listeners_
          ++ registeredCbs pre } with
      state_ := TaskState.kTaskFinishedState,
      status_ := ({ FutureTask.new { run_result := s, abort_result := false } with
        listeners_ := (FutureTask.new { run_result := s, abort_result := false }).listeners_
          ++ registeredCbs pre }).task_.run_result,
      latch_ := ({ FutureTask.new { run_result := s, abort_result := false } with
        listeners_ := (FutureTask.new { run_result := s, abort_result := false }).listeners_
          ++ registeredCbs pre }).latch_ - 1 }
    h2 rfl
  refine ⟨?_, ?_, fun ft cb h => addListener_terminal ft cb h⟩
  · rw [runOps_append, hpre]
    simp only [FutureTask.runOps, FutureTask.applyOp, hrun, hpost]
    simp [FutureTask.new, registeredCbs_append, registeredCbs,
          List.filter_append, filter_isInvocation_map_outcome,
          FtEvent.isInvocation]
  · rw [runOps_append, hpre]
    simp only [FutureTask.runOps, FutureTask.applyOp, hrun, hpost]
    simp [FutureTask.new]

theorem C2_listener_invocations_exactly_once_in_order_witness :
    (FtOp.run ∉ ([FtOp.addListener 1] : List FtOp))
    ∧ (FtOp.run ∉ ([FtOp.addListener 2] : List FtOp))
    ∧ (((FutureTask.new { run_result := Status.OK, abort_result := false }).runOps
        ([FtOp.addListener 1] ++ FtOp.run :: [FtOp.addListener 2])).2.filter
          FtEvent.isInvocation
      = (registeredCbs ([FtOp.addListener 1] ++ FtOp.run :: [FtOp.addListener 2])).map
          (outcomeEvent Status.OK)) :=
  ⟨by decide, by decide,
   (C2_listener_invocations_exactly_once_in_order Status.OK
      [FtOp.addListener 1] [FtOp.addListener 2] (by decide) (by decide)).1⟩

/-- C2 counterexample: a listener registered while the task is pending, after
a successful abort, receives `on_failure` with the synthesized aborted
status from `Run`, even though the cached status remains ok — so its
outcome does not match `status()` as the claim states. -/
theorem C2_counterexample_aborted_before_run_outcome_mismatch :
    ¬ listenerOutcomesMatchStatus
        (FutureTask.new { run_result := Status.OK, abort_result := true })
        [FtOp.addListener 0, FtOp.abort, FtOp.run] := by
  unfold listenerOutcomesMatchStatus
  decide

/-- C5: for every submission that passes the status and queue-full checks,
`Submit` attempts to spawn exactly one additional worker when and only when
`(queue_size + 1) - (num_threads - active_threads) > 0` and
`num_threads < max_threads`, the spawned worker being non-permanent (the
pool holds `min_threads ≤ num_threads` whenever it is Running, since `init`
spawns the `min_threads` permanent workers and only non-permanent ones
self-reap); and a spawn failure causes submit to return the failure only
when `num_threads == 0`, otherwise submission proceeds and succeeds. -/
theorem C5_submit_spawn_heuristic (p : ThreadPool) (task : Nat) (tr : Option Nat)
    (spawnOk : Bool)
    (hs : p.pool_status.ok = true)
    (hq : p.queue_size ≠ p.max_queue_size)
    (hmin : p.min_threads ≤ p.num_threads) :
    (((p.Submit task tr spawnOk).2.2.filter SubmitEvent.isSpawn).length
      = if p.needsSpawn then 1 else 0)
    ∧ (∀ perm ok2, SubmitEvent.spawnAttempt perm ok2 ∈ (p.Submit task tr spawnOk).2.2 →
        perm = false ∧ ok2 = spawnOk)
    ∧ (spawnOk = false → p.num_threads = 0 →
        ((p.Submit task tr spawnOk).1.ok = false ↔ p.needsSpawn))
    ∧ (spawnOk = false → 0 < p.num_threads → (p.Submit task tr spawnOk).1 = Status.OK) := by
  have hperm : decide (p.num_threads < p.min_threads) = false := by
    simp only [decide_eq_false_iff_not]
    omega
  by_cases h3 : p.needsSpawn
  · cases spawnOk with
    | true =>
      rw [submit_spawn_success p task tr hs hq h3]
      refine ⟨by simp [SubmitEvent.isSpawn, h3], ?_, by simp, by simp [ok_OK]⟩
      intro perm ok2 hm
      simp [hperm] at hm
      exact ⟨hm.1, hm.2⟩
    | false =>
      by_cases h0 : p.num_threads = 0
      · rw [submit_spawn_fail_fatal p task tr hs hq h3 h0]
        refine ⟨by simp [SubmitEvent.isSpawn, h3], ?_, ?_, by simp [h0]⟩
        · intro perm ok2 hm
          simp [hperm] at hm
          exact ⟨hm.1, hm.2⟩
        · intro _ _
          simp [ok_RuntimeError, h3]
      · rw [submit_spawn_fail_nonfatal p task tr hs hq h3 h0]
        refine ⟨by simp [SubmitEvent.isSpawn, h3], ?_, by simp [h0], by simp⟩
        intro perm ok2 hm
        simp [hperm, SubmitEvent.isSpawn] at hm
        exact ⟨hm.1, hm.2⟩
  · rw [submit_no_spawn p task tr spawnOk hs hq h3]
    refine ⟨by simp [SubmitEvent.isSpawn, h3], ?_, ?_, by simp [ok_OK]⟩
    · intro perm ok2 hm
      simp at hm
    · intro _ _
      simp [ok_OK, h3]

theorem C5_submit_spawn_heuristic_witness :
    samplePool.pool_status.ok = true
    ∧ samplePool.queue_size ≠ samplePool.max_queue_size
    ∧ samplePool.min_threads ≤ samplePool.num_threads
    ∧ ((samplePool.Submit 5 none true).2.2.filter SubmitEvent.isSpawn).length
        = if samplePool.needsSpawn then 1 else 0 :=
  ⟨rfl, by decide, by decide,
   (C5_submit_spawn_heuristic samplePool 5 none true rfl (by decide) (by decide)).1⟩

/-- C6: after `Pool.shutdown` returns (its wait loop exits exactly when
`num_threads = 0`), the queue is empty, with the retained trace reference of
every dropped queue entry released exactly once (one release per queued
entry carrying a trace, in queue order); and shutdown is idempotent: calling
it a second time (including from the destructor) leaves the pool in the same
shut-down state and releases nothing. -/
theorem C6_shutdown_drains_releases_and_idempotent (p q : ThreadPool) :
    (p.Shutdown).2 = p.queue.filterMap (fun e => e.trace)
    ∧ (p.Shutdown).1.queue = []
    ∧ (p.Shutdown).1.queue_size = 0
    ∧ (p.Shutdown).1.pool_status = Status.ServiceUnavailable "The pool has been shut down."
    ∧ (Relation.ReflTransGen ShutdownWaitStep (p.Shutdown).1 q →
        q.num_threads = 0 →
        q.queue = [] ∧ q.queue_size = 0 ∧ q.num_threads = 0 ∧ q.Shutdown = (q, [])) := by
  refine ⟨rfl, rfl, rfl, rfl, ?_⟩
  intro hreach
  have inv : q.queue = [] ∧ q.queue_size = 0
      ∧ q.pool_status = Status.ServiceUnavailable "The pool has been shut down." := by
    induction hreach with
    | refl => exact ⟨rfl, rfl, rfl⟩
    | tail hsteps hstep ih =>
      cases hstep <;> simpa using ih
  intro hzero
  obtain ⟨hq1, hq2, hq3⟩ := inv
  refine ⟨hq1, hq2, hzero, ?_⟩
  cases q
  simp_all [ThreadPool.Shutdown, ThreadPool.ClearQueue]

end KuduModel
